import Mathlib

/-!
Shallow embedding of the library core of the `android-ebooks` application:
the SQLite content store (`db/database.ts`), the preference toggles, the
fetch-books controller effect (`App.tsx`), and the reader's rendering
decision (`components/Reader.tsx`).

Conventions of the embedding:
* a SQLite database file is a `Database`: a list of `books` rows and a list
  of `chapters` rows;
* JavaScript string truthiness (`if (params.search)`) is modelled by
  `Option String` where both `none` and `some ""` are falsy;
* SQL `LIKE '%pat%'` (ASCII case-insensitive) and JS `String.includes`
  (case-sensitive) are modelled over `List Char` so that concrete instances
  reduce inside the kernel;
* `ORDER BY RANDOM()` is modelled by an explicit reordering function
  `shuffle` supplied to `getAllBooks`;
* the asynchronous effect in `App.tsx` is modelled as a pure function of the
  outcome of the underlying SQLite call (`queryError : Option String`,
  `some msg` meaning the call threw with message `msg`), returning the new
  component state together with a `FetchLog` counting how many times the
  effect invoked `getAllBooks` and `runFullInit`.
-/

namespace EBooks

/-! ## Data model (db/database.ts) -/

/-- A row of the `books` table: `books(book_id, title, author, cover_image)`.
`cover_image` is nullable. -/
structure BookRow where
  book_id : Int
  title : String
  author : String
  cover_image : Option String
deriving DecidableEq

/-- A row of the `chapters` table:
`chapters(chapter_id, book_id, chapter_number, chapter_title, body_text)`.
`chapter_title` is nullable. -/
structure ChapterRow where
  chapter_id : Int
  book_id : Int
  chapter_number : Int
  chapter_title : Option String
  body_text : String
deriving DecidableEq

/-- The user-supplied `books.db` database file. -/
structure Database where
  books : List BookRow
  chapters : List ChapterRow

/-- The `Book` interface returned by `getAllBooks` (cover already resolved). -/
structure Book where
  book_id : Int
  title : String
  author : String
  cover_url : String
deriving DecidableEq

/-- The `Chapter` interface returned by `getChaptersByBookId`
(title fallback already applied). -/
structure Chapter where
  chapter_id : Int
  book_id : Int
  chapter_number : Int
  title : String
  body_text : String
deriving DecidableEq

/-! ## String matching primitives -/

/-- Lower-cases a string into its character list (`Char.toLower` is
ASCII-only, matching SQLite's default case-insensitive `LIKE`). -/
def lowerChars (s : String) : List Char :=
  s.data.map Char.toLower

/-- Whether `pat` occurs contiguously inside the second list: `containsSlice pat l` holds when `pat` occurs contiguously inside `l`. -/
def containsSlice (pat : List Char) : List Char → Bool
  | [] => pat.isEmpty
  | c :: rest => pat.isPrefixOf (c :: rest) || containsSlice pat rest

/-- SQL `column LIKE '%pat%'`: ASCII case-insensitive substring test. -/
def likeContains (pat s : String) : Bool :=
  containsSlice (lowerChars pat) (lowerChars s)

/-- JS `s.includes(pat)`: case-sensitive substring test. -/
def includesStr (pat s : String) : Bool :=
  containsSlice pat.data s.data

/-- JS `pre`-prefix test, `s.startsWith(pre)`. -/
def strStartsWith (pre s : String) : Bool :=
  pre.data.isPrefixOf s.data

/-- JS truthiness of a nullable string: `null`/absent and `""` are falsy. -/
def optStrActive (o : Option String) : Bool :=
  match o with
  | none => false
  | some s => !s.isEmpty

/-! ## Content store: getAllBooks (db/database.ts lines 90-167) -/

/-- The parameter object of `getAllBooks`. Absent fields are `none`. -/
structure BookQueryParams where
  page : Option Int
  limit : Option Int
  search : Option String
  title : Option String
  author : Option String
  random : Bool
  ids : Option (List Int)
deriving DecidableEq

/-- Line 100, `const page = params.page || 1`: `0` and absent both fall back to `1`. -/
def effPage (page : Option Int) : Int :=
  match page with
  | some p => if p = 0 then 1 else p
  | none => 1

/-- Line 101, `const limit = params.limit || 50`: `0` and absent both fall back to `50`. -/
def effLimit (limit : Option Int) : Int :=
  match limit with
  | some l => if l = 0 then 50 else l
  | none => 50

/-- Line 102, `const offset = (page - 1) * limit`, on the effective
page/limit values. -/
def queryOffset (params : BookQueryParams) : Int :=
  (effPage params.page - 1) * effLimit params.limit

/-- The WHERE clause built on lines 104-125: each filter contributes a
conjunct only when its parameter is truthy; `ids` contributes only when
present AND non-empty (line 119: `params.ids && params.ids.length > 0`). -/
def rowMatches (params : BookQueryParams) (row : BookRow) : Bool :=
  (match params.search with
   | some s => if s.isEmpty then true
               else likeContains s row.title || likeContains s row.author
   | none => true)
  && (match params.title with
      | some t => if t.isEmpty then true else likeContains t row.title
      | none => true)
  && (match params.author with
      | some a => if a.isEmpty then true else likeContains a row.author
      | none => true)
  && (match params.ids with
      | some ids => if ids.isEmpty then true else ids.contains row.book_id
      | none => true)

/-- SQLite `LIMIT ? OFFSET ?`: a negative offset behaves like `0`
(`Int.toNat` clamps), a negative limit means "no limit". -/
def sqlPage (rows : List α) (limit offset : Int) : List α :=
  if limit < 0 then rows.drop offset.toNat
  else (rows.drop offset.toNat).take limit.toNat

/-- Integer model of `Math.ceil(a / b)`: the exact ceiling for every `b ≠ 0`
(`b = 0` is unreachable in `getAllBooks` because a zero limit falls back
to `50`). -/
def ceilDiv (a b : Int) : Int :=
  -(Int.fdiv (-a) b)

/-- Cover resolution (lines 142-149): absent or empty cover synthesizes the
picsum placeholder keyed by the book id; a stored value that already looks
like a URL (`http...`) or an embedded image (`data:...`) passes through;
anything else is wrapped as base64 JPEG data. -/
def resolveCover (bookId : Int) (cover_image : Option String) : String :=
  let placeholderUrl := "https://picsum.photos/seed/" ++ toString bookId ++ "/400/600"
  match cover_image with
  | none => placeholderUrl
  | some s =>
    if s.isEmpty then placeholderUrl
    else if strStartsWith "http" s || strStartsWith "data:" s then s
    else "data:image/jpeg;base64," ++ s

/-- The row-to-`Book` mapping of lines 141-156. -/
def toBook (row : BookRow) : Book :=
  ⟨row.book_id, row.title, row.author, resolveCover row.book_id row.cover_image⟩

structure Pagination where
  total : Int
  page : Int
  limit : Int
  totalPages : Int
deriving DecidableEq

structure BooksResponse where
  data : List Book
  pagination : Pagination
deriving DecidableEq

/-- Model of `getAllBooks` (lines 90-167). `shuffle` models `ORDER BY RANDOM()`:
it is applied to the filtered rows exactly when `params.random` is set,
before `LIMIT`/`OFFSET`. The COUNT query and the data query share the same
WHERE clause, so `total` counts the filtered rows. -/
def getAllBooks (db : Database) (shuffle : List BookRow → List BookRow)
    (params : BookQueryParams) : BooksResponse :=
  let page := effPage params.page
  let limit := effLimit params.limit
  let offset := queryOffset params
  let filtered := db.books.filter (fun row => rowMatches params row)
  let total : Int := filtered.length
  let ordered := if params.random then shuffle filtered else filtered
  let rows := sqlPage ordered limit offset
  { data := rows.map toBook,
    pagination :=
      { total := total, page := page, limit := limit,
        totalPages := ceilDiv total limit } }

/-! ## Content store: getChaptersByBookId (db/database.ts lines 169-181) -/

/-- Line 179, `row.chapter_title || 'Chapter N'`: null or empty title
falls back to `"Chapter N"`. -/
def chapterTitleFallback (row : ChapterRow) : String :=
  match row.chapter_title with
  | some t => if t.isEmpty then "Chapter " ++ toString row.chapter_number else t
  | none => "Chapter " ++ toString row.chapter_number

/-- The row-to-`Chapter` mapping of lines 174-180. -/
def toChapter (row : ChapterRow) : Chapter :=
  ⟨row.chapter_id, row.book_id, row.chapter_number, chapterTitleFallback row,
   row.body_text⟩

/-- Insertion step of the `ORDER BY chapter_number ASC` model. -/
def insertByNumber (c : ChapterRow) : List ChapterRow → List ChapterRow
  | [] => [c]
  | d :: ds =>
    if c.chapter_number ≤ d.chapter_number then c :: d :: ds
    else d :: insertByNumber c ds

/-- Model of SQL `ORDER BY chapter_number ASC`: sorts rows by `chapter_number`
(insertion sort; SQLite guarantees only the ordering, which is all the
development relies on). -/
def orderByChapterNumber : List ChapterRow → List ChapterRow
  | [] => []
  | c :: cs => insertByNumber c (orderByChapterNumber cs)

/-- Model of `getChaptersByBookId` (lines 169-181): selects the chapters of
`bookId`, orders them by `chapter_number`, and maps rows to `Chapter`.
There is no failure path of its own and no check that `bookId` exists in
the `books` table. -/
def getChaptersByBookId (db : Database) (bookId : Int) : List Chapter :=
  (orderByChapterNumber (db.chapters.filter (fun c => c.book_id == bookId))).map
    toChapter

/-- Whether `bookId` has a row in the `books` table (the check the
content store never performs). -/
def bookExists (db : Database) (bookId : Int) : Bool :=
  db.books.any (fun b => b.book_id == bookId)

/-! ## Preference store: favorites and bookmarks (App.tsx lines 201-215) -/

/-- Model of `toggleFavorite` (lines 201-203): remove the id when present,
append it otherwise. -/
def toggleFavorite (favorites : List Int) (bookId : Int) : List Int :=
  if favorites.contains bookId then favorites.filter (fun bid => bid != bookId)
  else favorites ++ [bookId]

/-- Lookup in the bookmarks map (`bookmarks[bookId]`), modelled as an
association list. Key order is immaterial to every use in the app. -/
def lookupKey : List (Int × Int) → Int → Option Int
  | [], _ => none
  | (k, v) :: rest, b => if k = b then some v else lookupKey rest b

/-- JS object assignment `next[bookId] = chapterIndex`: overwrite the
existing entry in place, or append a new one. -/
def setKey : List (Int × Int) → Int → Int → List (Int × Int)
  | [], b, v => [(b, v)]
  | (k, w) :: rest, b, v =>
    if k = b then (k, v) :: rest else (k, w) :: setKey rest b v

/-- JS `delete next[bookId]`: drop the entry keyed by `bookId`. -/
def eraseKey : List (Int × Int) → Int → List (Int × Int)
  | [], _ => []
  | (k, v) :: rest, b =>
    if k = b then eraseKey rest b else (k, v) :: eraseKey rest b

/-- Model of `toggleBookmark` (lines 205-215): if the stored bookmark already equals
`chapterIndex` the entry is deleted, otherwise it is set. -/
def toggleBookmark (bm : List (Int × Int)) (bookId chapterIndex : Int) :
    List (Int × Int) :=
  if lookupKey bm bookId = some chapterIndex then eraseKey bm bookId
  else setKey bm bookId chapterIndex

/-! ## Reader navigation state (App.tsx lines 184-199, 266-280) -/

/-- Model of `handleBookSelect` (lines 192-193): the starting chapter index is the
saved bookmark when the map has an entry for the book, else `0`. -/
def startingChapterIndex (bm : List (Int × Int)) (bookId : Int) : Int :=
  match lookupKey bm bookId with
  | some saved => saved
  | none => 0

/-- Line 277, `isBookmarked=\x7bbookmarks[selectedBook.book_id] === currentChapterIdx\x7d`
(line 277). -/
def isBookmarked (bm : List (Int × Int)) (bookId currentChapterIdx : Int) :
    Bool :=
  lookupKey bm bookId == some currentChapterIdx

/-! ## Reader rendering decision (components/Reader.tsx lines 75-107) -/

/-- JS indexing `chapters[currentChapterIndex]`: `undefined` outside
`[0, chapters.length - 1]`. -/
def chapterAt (chapters : List Chapter) (i : Int) : Option Chapter :=
  if i < 0 then none else chapters[i.toNat]?

/-- The three top-level screens the `Reader` component can render. -/
inductive ReaderView where
  | loadingView
  | noContent
  | content (c : Chapter)
deriving DecidableEq

/-- The render decision of `Reader` (lines 88-109): the loading screen when
`isLoading`, the "No Content Available" fallback when
`chapters[currentChapterIndex]` is `undefined`, and the chapter screen
otherwise. -/
def readerRender (chapters : List Chapter) (currentChapterIndex : Int)
    (isLoading : Bool) : ReaderView :=
  if isLoading then ReaderView.loadingView
  else
    match chapterAt chapters currentChapterIndex with
    | none => ReaderView.noContent
    | some c => ReaderView.content c

/-! ## Library query controller: the fetch-books effect (App.tsx 140-181) -/

inductive LoadState where
  | idle
  | loading
  | success
  | error
deriving DecidableEq

inductive ViewState where
  | home
  | authors
  | authorDetail
  | allBooks
  | favorites
  | bookmarks
deriving DecidableEq

/-- Line 147: `if (currentView === 'author_detail' && selectedAuthor)
filters.author = selectedAuthor`. -/
def fetchFilterAuthor (view : ViewState) (selectedAuthor : Option String) :
    Option String :=
  if view = ViewState.authorDetail ∧ optStrActive selectedAuthor then
    selectedAuthor
  else none

/-- Lines 149-150: the favorites view filters by the favorite ids, the
bookmarks view by the keys of the bookmarks map. -/
def fetchFilterIds (view : ViewState) (favorites : List Int)
    (bookmarks : List (Int × Int)) : Option (List Int) :=
  match view with
  | ViewState.favorites => some favorites
  | ViewState.bookmarks => some (bookmarks.map Prod.fst)
  | _ => none

/-- The `getAllBooks` argument built on lines 146-165: fixed `limit: 20`,
the current page, the raw search term, plus the view-derived filters. -/
def fetchParams (view : ViewState) (selectedAuthor : Option String)
    (favorites : List Int) (bookmarks : List (Int × Int)) (currentPage : Int)
    (searchTerm : String) : BookQueryParams :=
  { page := some currentPage, limit := some 20, search := some searchTerm,
    title := none,
    author := fetchFilterAuthor view selectedAuthor,
    random := if view = ViewState.home then true else false,
    ids := fetchFilterIds view favorites bookmarks }

/-- Lines 152-153: the controller short-circuits when the favorites view has
no favorites or the bookmarks view has no bookmarks. -/
def fetchShortCircuits (view : ViewState) (favorites : List Int)
    (bookmarks : List (Int × Int)) : Bool :=
  (if view = ViewState.favorites then favorites.isEmpty else false)
  || (if view = ViewState.bookmarks then bookmarks.isEmpty else false)

/-- Line 172: the error messages that trigger the emergency re-init. -/
def isConnIssue (msg : String) : Bool :=
  includesStr "no such table" msg || includesStr "database is closed" msg

/-- The component state the fetch effect reads and writes. -/
structure FetchState where
  books : List Book
  totalPages : Int
  loadingState : LoadState
deriving DecidableEq

/-- Instrumentation of one effect run: how many times it called
`getAllBooks` and how many times it called `runFullInit`. -/
structure FetchLog where
  queryCalls : Nat
  reinitCalls : Nat
deriving DecidableEq

/-- One execution of the debounced fetch-books effect body (App.tsx lines
144-178), after the 500ms timer fires. `queryError = some msg` models the
underlying SQLite call throwing with message `msg`; `none` models it
succeeding, in which case the result is `getAllBooks` on the current
database. On a throw, the catch block (lines 169-177) calls `runFullInit`
exactly when the message indicates a missing table or closed connection,
and then unconditionally sets the error state; the effect body contains no
second `getAllBooks` call. -/
def runFetchEffect (db : Database) (shuffle : List BookRow → List BookRow)
    (view : ViewState) (selectedAuthor : Option String) (favorites : List Int)
    (bookmarks : List (Int × Int)) (currentPage : Int) (searchTerm : String)
    (prev : FetchState) (queryError : Option String) : FetchState × FetchLog :=
  if fetchShortCircuits view favorites bookmarks then
    ({ books := [], totalPages := 1, loadingState := LoadState.success },
     { queryCalls := 0, reinitCalls := 0 })
  else
    match queryError with
    | none =>
      let response := getAllBooks db shuffle
        (fetchParams view selectedAuthor favorites bookmarks currentPage
          searchTerm)
      ({ books := response.data,
         totalPages := response.pagination.totalPages,
         loadingState := LoadState.success },
       { queryCalls := 1, reinitCalls := 0 })
    | some msg =>
      ({ books := prev.books, totalPages := prev.totalPages,
         loadingState := LoadState.error },
       { queryCalls := 1, reinitCalls := if isConnIssue msg then 1 else 0 })

/-! ## Concrete fixtures -/

/-- A database holding a single book (id 1) and no chapters. -/
def dbOne : Database :=
  ⟨[⟨1, "Gitanjali", "Tagore", none⟩], []⟩

/-- A database holding one book (id 1) with two chapters whose
`chapter_number`s are distinct and stored out of order. -/
def dbTwoChapters : Database :=
  ⟨[⟨1, "Gitanjali", "Tagore", none⟩],
   [⟨1, 1, 2, none, "second"⟩, ⟨2, 1, 1, none, "first"⟩]⟩

/-- A previous fetch state, mid-request. -/
def prevFetchState : FetchState :=
  ⟨[], 1, LoadState.loading⟩

/-! ## Association-list lemmas for the bookmarks map -/

theorem lookupKey_eraseKey_self (bm : List (Int × Int)) (b : Int) :
    lookupKey (eraseKey bm b) b = none := by
  induction bm with
  | nil => rfl
  | cons p rest ih =>
    obtain ⟨k, v⟩ := p
    simp only [eraseKey]
    by_cases hk : k = b
    · rw [if_pos hk]
      exact ih
    · rw [if_neg hk]
      simp only [lookupKey]
      rw [if_neg hk]
      exact ih

theorem lookupKey_eraseKey_ne (bm : List (Int × Int)) (b c : Int)
    (hne : c ≠ b) : lookupKey (eraseKey bm b) c = lookupKey bm c := by
  induction bm with
  | nil => rfl
  | cons p rest ih =>
    obtain ⟨k, v⟩ := p
    simp only [eraseKey, lookupKey]
    by_cases hk : k = b
    · have hkc : ¬ k = c := by
        intro h
        exact hne (by rw [← h]; exact hk)
      rw [if_pos hk, if_neg hkc]
      exact ih
    · rw [if_neg hk]
      simp only [lookupKey]
      by_cases hkc : k = c
      · rw [if_pos hkc, if_pos hkc]
      · rw [if_neg hkc, if_neg hkc]
        exact ih

theorem lookupKey_setKey_self (bm : List (Int × Int)) (b v : Int) :
    lookupKey (setKey bm b v) b = some v := by
  induction bm with
  | nil => simp [setKey, lookupKey]
  | cons p rest ih =>
    obtain ⟨k, w⟩ := p
    simp only [setKey]
    by_cases hk : k = b
    · rw [if_pos hk]
      simp only [lookupKey]
      rw [if_pos hk]
    · rw [if_neg hk]
      simp only [lookupKey]
      rw [if_neg hk]
      exact ih

theorem lookupKey_setKey_ne (bm : List (Int × Int)) (b v c : Int)
    (hne : c ≠ b) : lookupKey (setKey bm b v) c = lookupKey bm c := by
  induction bm with
  | nil =>
    simp only [setKey, lookupKey]
    rw [if_neg (fun h => hne h.symm)]
  | cons p rest ih =>
    obtain ⟨k, w⟩ := p
    simp only [setKey, lookupKey]
    by_cases hk : k = b
    · have hkc : ¬ k = c := by
        intro h
        exact hne (by rw [← h]; exact hk)
      rw [if_pos hk]
      simp only [lookupKey]
      rw [if_neg hkc, if_neg hkc]
    · rw [if_neg hk]
      simp only [lookupKey]
      by_cases hkc : k = c
      · rw [if_pos hkc, if_pos hkc]
      · rw [if_neg hkc, if_neg hkc]
        exact ih

theorem setKey_map_fst_mem (bm : List (Int × Int)) (b v : Int)
    (h : b ∈ bm.map Prod.fst) :
    (setKey bm b v).map Prod.fst = bm.map Prod.fst := by
  induction bm with
  | nil => simp at h
  | cons p rest ih =>
    obtain ⟨k, w⟩ := p
    simp only [setKey]
    by_cases hk : k = b
    · rw [if_pos hk]
      simp
    · rw [if_neg hk]
      simp only [List.map_cons] at h ⊢
      have hb : b ∈ rest.map Prod.fst := by
        rcases List.mem_cons.mp h with h1 | h1
        · exact absurd h1.symm hk
        · exact h1
      rw [ih hb]

theorem setKey_map_fst_notmem (bm : List (Int × Int)) (b v : Int)
    (h : b ∉ bm.map Prod.fst) :
    (setKey bm b v).map Prod.fst = bm.map Prod.fst ++ [b] := by
  induction bm with
  | nil => simp [setKey]
  | cons p rest ih =>
    obtain ⟨k, w⟩ := p
    simp only [List.map_cons, List.mem_cons] at h
    push_neg at h
    obtain ⟨hbk, hbrest⟩ := h
    simp only [setKey]
    rw [if_neg (fun hh => hbk hh.symm)]
    simp only [List.map_cons, List.cons_append]
    rw [ih hbrest]

theorem nodup_setKey_map_fst (bm : List (Int × Int)) (b v : Int)
    (h : (bm.map Prod.fst).Nodup) : ((setKey bm b v).map Prod.fst).Nodup := by
  by_cases hmem : b ∈ bm.map Prod.fst
  · rw [setKey_map_fst_mem bm b v hmem]
    exact h
  · rw [setKey_map_fst_notmem bm b v hmem]
    simp [List.nodup_append, h, hmem]

theorem mem_eraseKey_map_fst (bm : List (Int × Int)) (b x : Int)
    (h : x ∈ (eraseKey bm b).map Prod.fst) : x ∈ bm.map Prod.fst := by
  induction bm with
  | nil => simp [eraseKey] at h
  | cons p rest ih =>
    obtain ⟨k, v⟩ := p
    simp only [eraseKey] at h
    by_cases hk : k = b
    · rw [if_pos hk] at h
      simp only [List.map_cons, List.mem_cons]
      exact Or.inr (ih h)
    · rw [if_neg hk] at h
      simp only [List.map_cons, List.mem_cons] at h ⊢
      rcases h with h | h
      · exact Or.inl h
      · exact Or.inr (ih h)

theorem nodup_eraseKey_map_fst (bm : List (Int × Int)) (b : Int)
    (h : (bm.map Prod.fst).Nodup) : ((eraseKey bm b).map Prod.fst).Nodup := by
  induction bm with
  | nil => simp [eraseKey]
  | cons p rest ih =>
    obtain ⟨k, v⟩ := p
    simp only [List.map_cons, List.nodup_cons] at h
    obtain ⟨hkmem, hrest⟩ := h
    simp only [eraseKey]
    by_cases hk : k = b
    · rw [if_pos hk]
      exact ih hrest
    · rw [if_neg hk]
      simp only [List.map_cons, List.nodup_cons]
      exact ⟨fun hmem => hkmem (mem_eraseKey_map_fst rest b k hmem), ih hrest⟩

/-! ## List.contains lemmas for the favorites array -/

theorem contains_filter_ne_self (l : List Int) (b : Int) :
    (l.filter (fun bid => bid != b)).contains b = false := by
  simp [List.mem_filter]

theorem contains_filter_ne_other (l : List Int) (b c : Int) (hne : c ≠ b) :
    (l.filter (fun bid => bid != b)).contains c = l.contains c := by
  simp [List.mem_filter, hne]

theorem contains_append_single_ne (l : List Int) (b c : Int) (hne : c ≠ b) :
    (l ++ [b]).contains c = l.contains c := by
  simp [hne]

theorem favorite_toggle_contains (l : List Int) (b : Int) :
    (toggleFavorite l b).contains b = !(l.contains b) := by
  by_cases h : l.contains b = true
  · rw [toggleFavorite, if_pos h, h, contains_filter_ne_self]
    rfl
  · have h' : l.contains b = false := by
      revert h; cases l.contains b <;> simp
    rw [toggleFavorite, if_neg h, h']
    simp

/-! ## Claim theorems: preference toggles and reader state -/

/-- Claim C5 counterexample: starting from a bookmarks map that already
holds `1 ↦ 2`, calling `toggleBookmark 1 2` twice does NOT leave book 1
without a bookmark: the first call clears the entry and the second call
re-creates it, so the map again holds `1 ↦ 2`. -/
theorem bookmark_double_toggle_cex :
    lookupKey (toggleBookmark (toggleBookmark [((1 : Int), (2 : Int))] 1 2) 1 2) 1
      = some 2
    ∧ ¬ lookupKey (toggleBookmark (toggleBookmark [((1 : Int), (2 : Int))] 1 2) 1 2) 1
      = none := by
  decide

/-- Claim C5 (amended): provided the bookmark stored for `b` is not already
`i`, toggling twice with the same arguments leaves no bookmark for `b`
(the first call sets `b ↦ i`, the second clears it); and the bookmarks map
keeps at most one entry per book id (key-uniqueness is preserved by every
toggle). When the stored bookmark already equals `i`, the double toggle
instead restores it. -/
theorem bookmark_double_toggle_amended (bm : List (Int × Int)) (b i : Int) :
    (lookupKey bm b ≠ some i →
      lookupKey (toggleBookmark (toggleBookmark bm b i) b i) b = none)
    ∧ ((bm.map Prod.fst).Nodup → ((toggleBookmark bm b i).map Prod.fst).Nodup) := by
  constructor
  · intro hprev
    have h1 : toggleBookmark bm b i = setKey bm b i := by
      rw [toggleBookmark, if_neg hprev]
    have h2 : toggleBookmark (setKey bm b i) b i = eraseKey (setKey bm b i) b := by
      rw [toggleBookmark, if_pos (lookupKey_setKey_self bm b i)]
    rw [h1, h2]
    exact lookupKey_eraseKey_self (setKey bm b i) b
  · intro hnodup
    rw [toggleBookmark]
    by_cases hc : lookupKey bm b = some i
    · rw [if_pos hc]
      exact nodup_eraseKey_map_fst bm b hnodup
    · rw [if_neg hc]
      exact nodup_setKey_map_fst bm b i hnodup

/-- Witness for the amended C5 theorem at a concrete map `[3 ↦ 7]`,
book 1, chapter index 2. -/
theorem bookmark_double_toggle_amended_witness :
    lookupKey (toggleBookmark (toggleBookmark [((3 : Int), (7 : Int))] 1 2) 1 2) 1
      = none :=
  (bookmark_double_toggle_amended [((3 : Int), (7 : Int))] 1 2).1 (by decide)

/-- Claim C6: one `toggleFavorite` flips the membership of `bookId`
(adds it when absent, removes it when present), and toggling twice restores
the original membership, from every starting favorites list. -/
theorem favorite_double_toggle (favorites : List Int) (bookId : Int) :
    (toggleFavorite favorites bookId).contains bookId = !(favorites.contains bookId)
    ∧ (toggleFavorite (toggleFavorite favorites bookId) bookId).contains bookId
      = favorites.contains bookId := by
  refine ⟨favorite_toggle_contains favorites bookId, ?_⟩
  rw [favorite_toggle_contains, favorite_toggle_contains, Bool.not_not]

/-- Claim C8: on book selection the starting chapter index is the saved
bookmark when the bookmarks map has an entry for the book (and then the
`isBookmarked` flag derived at that index is true), and `0` otherwise. -/
theorem reader_start_index (bm : List (Int × Int)) (b : Int) :
    (∀ i, lookupKey bm b = some i →
      startingChapterIndex bm b = i
      ∧ isBookmarked bm b (startingChapterIndex bm b) = true)
    ∧ (lookupKey bm b = none → startingChapterIndex bm b = 0) := by
  constructor
  · intro i hi
    constructor
    · rw [startingChapterIndex, hi]
    · rw [isBookmarked, startingChapterIndex, hi]
      simp
  · intro h
    rw [startingChapterIndex, h]

/-- Witness for C8: the spec scenario of a saved bookmark at index 4:
the reader opens at chapter index 4 with `isBookmarked = true`. -/
theorem reader_start_index_witness :
    startingChapterIndex [((1 : Int), (4 : Int))] 1 = 4
    ∧ isBookmarked [((1 : Int), (4 : Int))] 1
        (startingChapterIndex [((1 : Int), (4 : Int))] 1) = true :=
  (reader_start_index [((1 : Int), (4 : Int))] 1).1 4 (by decide)

/-- Claim C9: the Reader is total at its interface: whenever
`currentChapterIndex` lies outside `[0, chapters.length - 1]` (including
the empty-list case), `chapters[currentChapterIndex]` is `undefined` and
the Reader renders the "No Content Available" fallback; and the
chapter-content branch is rendered only when a chapter exists at the
index. -/
theorem reader_totality :
    (∀ (chapters : List Chapter) (i : Int),
      (i < 0 ∨ (chapters.length : Int) ≤ i) →
      chapterAt chapters i = none
      ∧ readerRender chapters i false = ReaderView.noContent)
    ∧ (∀ (chapters : List Chapter) (i : Int) (c : Chapter),
      readerRender chapters i false = ReaderView.content c →
      chapterAt chapters i = some c) := by
  constructor
  · intro chapters i h
    have hnone : chapterAt chapters i = none := by
      rcases h with h | h
      · rw [chapterAt, if_pos h]
      · rw [chapterAt, if_neg (by omega)]
        apply List.getElem?_eq_none
        omega
    refine ⟨hnone, ?_⟩
    rw [readerRender]
    simp [hnone]
  · intro chapters i c h
    rw [readerRender] at h
    simp only [Bool.false_eq_true, if_false] at h
    cases hc : chapterAt chapters i with
    | none =>
      rw [hc] at h
      exact absurd h (by simp)
    | some d =>
      rw [hc] at h
      simp only [ReaderView.content.injEq] at h
      rw [h]

/-- Witness for C9 at the empty chapter list and index 0. -/
theorem reader_totality_witness :
    chapterAt [] 0 = none ∧ readerRender [] 0 false = ReaderView.noContent :=
  reader_totality.1 [] 0 (by decide)

/-- Claim C10 (frame property): a bookmark toggle for book `b` leaves the
bookmark of every other book unchanged, and a favorite toggle for `b`
leaves the membership of every other id unchanged. -/
theorem toggle_frame (bm : List (Int × Int)) (favorites : List Int)
    (b i c : Int) (hne : c ≠ b) :
    lookupKey (toggleBookmark bm b i) c = lookupKey bm c
    ∧ (toggleFavorite favorites b).contains c = favorites.contains c := by
  constructor
  · rw [toggleBookmark]
    by_cases hc : lookupKey bm b = some i
    · rw [if_pos hc]
      exact lookupKey_eraseKey_ne bm b c hne
    · rw [if_neg hc]
      exact lookupKey_setKey_ne bm b i c hne
  · rw [toggleFavorite]
    by_cases h : favorites.contains b = true
    · rw [if_pos h]
      exact contains_filter_ne_other favorites b c hne
    · rw [if_neg h]
      exact contains_append_single_ne favorites b c hne

/-- Witness for C10: toggling book 1 does not disturb book 5's bookmark or
its favorite membership. -/
theorem toggle_frame_witness :
    lookupKey (toggleBookmark [((5 : Int), (9 : Int))] 1 2) 5
      = lookupKey [((5 : Int), (9 : Int))] 5
    ∧ (toggleFavorite [(5 : Int)] 1).contains 5 = ([(5 : Int)].contains 5) :=
  toggle_frame [((5 : Int), (9 : Int))] [(5 : Int)] 1 2 5 (by decide)

/-! ## Sorting lemmas for getChaptersByBookId -/

theorem perm_insertByNumber (c : ChapterRow) (l : List ChapterRow) :
    (insertByNumber c l).Perm (c :: l) := by
  induction l with
  | nil => exact List.Perm.refl _
  | cons d ds ih =>
    simp only [insertByNumber]
    by_cases h : c.chapter_number ≤ d.chapter_number
    · rw [if_pos h]
    · rw [if_neg h]
      exact (ih.cons d).trans (List.Perm.swap c d ds)

theorem perm_orderByChapterNumber (l : List ChapterRow) :
    (orderByChapterNumber l).Perm l := by
  induction l with
  | nil => exact List.Perm.refl _
  | cons c cs ih =>
    exact (perm_insertByNumber c _).trans (ih.cons c)

theorem pairwise_insertByNumber (c : ChapterRow) (l : List ChapterRow)
    (h : l.Pairwise (fun a b => a.chapter_number ≤ b.chapter_number)) :
    (insertByNumber c l).Pairwise
      (fun a b => a.chapter_number ≤ b.chapter_number) := by
  induction l with
  | nil => simp [insertByNumber]
  | cons d ds ih =>
    obtain ⟨hd, hds⟩ := List.pairwise_cons.mp h
    simp only [insertByNumber]
    by_cases hc : c.chapter_number ≤ d.chapter_number
    · rw [if_pos hc]
      refine List.pairwise_cons.mpr ⟨?_, h⟩
      intro b hb
      rcases List.mem_cons.mp hb with rfl | hb'
      · exact hc
      · exact le_trans hc (hd b hb')
    · rw [if_neg hc]
      refine List.pairwise_cons.mpr ⟨?_, ih hds⟩
      intro b hb
      have hb' : b ∈ c :: ds := (perm_insertByNumber c ds).mem_iff.mp hb
      rcases List.mem_cons.mp hb' with rfl | hb2
      · omega
      · exact hd b hb2

theorem pairwise_orderByChapterNumber (l : List ChapterRow) :
    (orderByChapterNumber l).Pairwise
      (fun a b => a.chapter_number ≤ b.chapter_number) := by
  induction l with
  | nil => exact List.Pairwise.nil
  | cons c cs ih => exact pairwise_insertByNumber c _ ih

/-! ## Claim theorems: getChaptersByBookId -/

/-- Claim C3 counterexample: in `dbOne` book id 2 does not exist in the
`books` table, yet `getChaptersByBookId` returns the empty list as a
normal (non-error) result — it never fails with `NotFound`, refuting
"an empty chapter list is returned as a non-error result only when the
book exists". -/
theorem chapters_missing_book_cex :
    getChaptersByBookId dbOne 2 = []
    ∧ bookExists dbOne 2 = false
    ∧ ¬ (getChaptersByBookId dbOne 2 = [] → bookExists dbOne 2 = true) := by
  decide

/-- Claim C3 (amended): `getChaptersByBookId` performs no book-existence
check and has no `NotFound` failure path: whenever no chapter row carries
the requested `book_id` — in particular when the book does not exist in
the `books` table at all — it returns the empty list as an ordinary
result, indistinguishable from an existing book with zero chapters. -/
theorem chapters_missing_book_amended (db : Database) (bookId : Int)
    (h : ∀ c ∈ db.chapters, c.book_id ≠ bookId) :
    getChaptersByBookId db bookId = [] := by
  have hfilter : db.chapters.filter (fun c => c.book_id == bookId) = [] := by
    rw [List.filter_eq_nil_iff]
    intro c hc
    simp [h c hc]
  rw [getChaptersByBookId, hfilter]
  rfl

/-- Witness for the amended C3 theorem: book id 5 has no chapters in
`dbTwoChapters` (and no row in `books`), and the result is `[]`. -/
theorem chapters_missing_book_amended_witness :
    getChaptersByBookId dbTwoChapters 5 = [] :=
  chapters_missing_book_amended dbTwoChapters 5 (by decide)

/-- Claim C7: under the data-model invariant of the spec (chapters of a
book are totally ordered by their sequence number, i.e. the book's
`chapter_number`s are pairwise distinct), `getChaptersByBookId` returns
the chapters sorted strictly ascending by `chapter_number`: each
chapter's number is strictly greater than its predecessor's. -/
theorem chapters_sorted_strict (db : Database) (bookId : Int)
    (h : (db.chapters.filter (fun c => c.book_id == bookId)).Pairwise
      (fun a b => a.chapter_number ≠ b.chapter_number)) :
    (getChaptersByBookId db bookId).Chain'
      (fun a b => a.chapter_number < b.chapter_number) := by
  apply List.Pairwise.chain'
  rw [getChaptersByBookId, List.pairwise_map]
  have hle := pairwise_orderByChapterNumber
    (db.chapters.filter (fun c => c.book_id == bookId))
  have hperm := perm_orderByChapterNumber
    (db.chapters.filter (fun c => c.book_id == bookId))
  have hne : (orderByChapterNumber
      (db.chapters.filter (fun c => c.book_id == bookId))).Pairwise
      (fun a b => a.chapter_number ≠ b.chapter_number) :=
    (List.Perm.pairwise_iff (fun hab => Ne.symm hab) hperm).mpr h
  refine (List.Pairwise.and hle hne).imp ?_
  rintro a b ⟨h1, h2⟩
  exact lt_of_le_of_ne h1 h2

/-- Witness for C7 on `dbTwoChapters`: the two rows, stored out of order,
come back strictly ascending. -/
theorem chapters_sorted_strict_witness :
    (getChaptersByBookId dbTwoChapters 1).Chain'
      (fun a b => a.chapter_number < b.chapter_number) :=
  chapters_sorted_strict dbTwoChapters 1 (by decide)

/-! ## Arithmetic and paging lemmas for getAllBooks -/

/-- For a positive divisor, `ceilDiv a b` is the exact ceiling of `a / b`:
it is the least integer `q` with `a ≤ b * q`. -/
theorem ceilDiv_sandwich (a b : Int) (hb : 0 < b) :
    b * (ceilDiv a b - 1) < a ∧ a ≤ b * ceilDiv a b := by
  unfold ceilDiv
  rw [Int.fdiv_eq_ediv _ (le_of_lt hb)]
  have h1 := Int.ediv_add_emod (-a) b
  have h2 := Int.emod_nonneg (-a) (by omega : b ≠ 0)
  have h3 := Int.emod_lt_of_pos (-a) hb
  constructor <;> nlinarith [h1, h2, h3]

theorem length_sqlPage_le {α : Type} (rows : List α) (limit offset : Int)
    (h : 0 ≤ limit) :
    ((sqlPage rows limit offset).length : Int) ≤ limit := by
  rw [sqlPage, if_neg (by omega : ¬ limit < 0)]
  have := (rows.drop offset.toNat).length_take_le limit.toNat
  omega

/-! ## Claim theorems: getAllBooks and the fetch effect -/

/-- Claim C1 counterexample: calling `getAllBooks` with `ids` present and
EMPTY does not produce the empty page: line 119 adds the
`book_id IN (...)` condition only when `params.ids.length > 0`, so an
empty id list contributes no condition and the query runs unfiltered over
all books — on `dbOne` it returns the one book with `total = 1`, not
`{items: [], total: 0}`. -/
theorem getAllBooks_emptyIds_cex :
    ¬ ((getAllBooks dbOne id ⟨none, none, none, none, none, false, some []⟩).data = []
      ∧ (getAllBooks dbOne id
          ⟨none, none, none, none, none, false, some []⟩).pagination.total = 0) := by
  decide

/-- Claim C1 (amended): in the Content Store an empty `ids` list behaves
exactly like an absent `ids` filter (the query runs unfiltered over ids);
the empty-idSet contract is enforced one level up, by the Library Query
Controller, which short-circuits the favorites/bookmarks views with an
empty id set to an empty successful page (`books = []`, `totalPages = 1`)
without invoking `getAllBooks` at all. -/
theorem getAllBooks_emptyIds_amended :
    (∀ (db : Database) (shuffle : List BookRow → List BookRow)
        (page limit : Option Int) (search title author : Option String)
        (random : Bool),
      getAllBooks db shuffle ⟨page, limit, search, title, author, random, some []⟩
        = getAllBooks db shuffle ⟨page, limit, search, title, author, random, none⟩)
    ∧ (∀ (db : Database) (shuffle : List BookRow → List BookRow)
        (view : ViewState) (selectedAuthor : Option String)
        (favorites : List Int) (bookmarks : List (Int × Int))
        (currentPage : Int) (searchTerm : String) (prev : FetchState)
        (queryError : Option String),
      fetchShortCircuits view favorites bookmarks = true →
      runFetchEffect db shuffle view selectedAuthor favorites bookmarks
          currentPage searchTerm prev queryError
        = (⟨[], 1, LoadState.success⟩, ⟨0, 0⟩)) := by
  constructor
  · intro db shuffle page limit search title author random
    rfl
  · intro db shuffle view selectedAuthor favorites bookmarks currentPage
      searchTerm prev queryError hsc
    rw [runFetchEffect.eq_def, if_pos hsc]

/-- Witness for the amended C1 theorem: the favorites view with no
favorites short-circuits to the empty successful page without querying. -/
theorem getAllBooks_emptyIds_amended_witness :
    runFetchEffect dbOne id ViewState.favorites none [] [] 1 ""
        prevFetchState none
      = (⟨[], 1, LoadState.success⟩, ⟨0, 0⟩) :=
  getAllBooks_emptyIds_amended.2 dbOne id ViewState.favorites none [] [] 1 ""
    prevFetchState none (by decide)

/-- Claim C4 counterexample: `page = 0` is a non-negative integer, but
`params.page || 1` (line 100) replaces `0` by the default `1`, so the
computed query offset is `(1 - 1) * 20 = 0`, not `(0 - 1) * 20 = -20`
as the claim's formula demands. -/
theorem pagination_page_zero_cex :
    queryOffset ⟨some 0, some 20, none, none, none, false, none⟩
      ≠ ((0 : Int) - 1) * 20 := by
  decide

/-- Claim C4 (amended): for all POSITIVE integers `page` and `pageSize`
(zero is replaced by the defaults 1 and 50 by `|| 1` / `|| 50`), the
returned items list has length at most `pageSize`, the returned
`totalPages` is the exact ceiling of `total / pageSize` (the unique
integer with `pageSize * (totalPages - 1) < total ≤ pageSize * totalPages`),
and the query offset equals `(page - 1) * pageSize`. -/
theorem getAllBooks_pagination_amended (db : Database)
    (shuffle : List BookRow → List BookRow) (p l : Int)
    (s t a : Option String) (r : Bool) (ids : Option (List Int))
    (hp : 1 ≤ p) (hl : 1 ≤ l) :
    (((getAllBooks db shuffle ⟨some p, some l, s, t, a, r, ids⟩).data.length : Int) ≤ l)
    ∧ (l * ((getAllBooks db shuffle
          ⟨some p, some l, s, t, a, r, ids⟩).pagination.totalPages - 1)
        < (getAllBooks db shuffle ⟨some p, some l, s, t, a, r, ids⟩).pagination.total
      ∧ (getAllBooks db shuffle ⟨some p, some l, s, t, a, r, ids⟩).pagination.total
        ≤ l * (getAllBooks db shuffle
          ⟨some p, some l, s, t, a, r, ids⟩).pagination.totalPages)
    ∧ queryOffset ⟨some p, some l, s, t, a, r, ids⟩ = (p - 1) * l := by
  have hp0 : p ≠ 0 := by omega
  have hl0 : l ≠ 0 := by omega
  have heffp : effPage (some p) = p := by
    simp only [effPage]
    rw [if_neg hp0]
  have heffl : effLimit (some l) = l := by
    simp only [effLimit]
    rw [if_neg hl0]
  refine ⟨?_, ⟨?_, ?_⟩, ?_⟩
  · simp only [getAllBooks, heffl, List.length_map]
    exact length_sqlPage_le _ l _ (by omega)
  · simp only [getAllBooks, heffl]
    exact (ceilDiv_sandwich _ l (by omega)).1
  · simp only [getAllBooks, heffl]
    exact (ceilDiv_sandwich _ l (by omega)).2
  · rw [queryOffset]
    simp only [heffp, heffl]

/-- Witness for the amended C4 theorem at `page = 1`, `pageSize = 20` on
`dbOne`. -/
theorem getAllBooks_pagination_amended_witness :
    (((getAllBooks dbOne id ⟨some 1, some 20, none, none, none, false, none⟩).data.length : Int) ≤ 20)
    ∧ (20 * ((getAllBooks dbOne id
          ⟨some 1, some 20, none, none, none, false, none⟩).pagination.totalPages - 1)
        < (getAllBooks dbOne id
          ⟨some 1, some 20, none, none, none, false, none⟩).pagination.total
      ∧ (getAllBooks dbOne id
          ⟨some 1, some 20, none, none, none, false, none⟩).pagination.total
        ≤ 20 * (getAllBooks dbOne id
          ⟨some 1, some 20, none, none, none, false, none⟩).pagination.totalPages)
    ∧ queryOffset ⟨some 1, some 20, none, none, none, false, none⟩ = ((1 : Int) - 1) * 20 :=
  getAllBooks_pagination_amended dbOne id 1 20 none none none false none
    (by decide) (by decide)

/-- Claim C2 counterexample: on a fetch failure whose message contains
"no such table", the effect performs one `runFullInit` but does NOT retry
the query within the request — `getAllBooks` is invoked exactly once (the
call that threw), never a second time — and the request transitions to the
error state even though no "retried query" failed. -/
theorem fetch_error_no_retry_cex :
    (runFetchEffect dbOne id ViewState.allBooks none [] [] 1 ""
        prevFetchState (some "no such table")).2.queryCalls = 1
    ∧ ¬ (runFetchEffect dbOne id ViewState.allBooks none [] [] 1 ""
        prevFetchState (some "no such table")).2.queryCalls = 2
    ∧ (runFetchEffect dbOne id ViewState.allBooks none [] [] 1 ""
        prevFetchState (some "no such table")).2.reinitCalls = 1
    ∧ (runFetchEffect dbOne id ViewState.allBooks none [] [] 1 ""
        prevFetchState (some "no such table")).1.loadingState
      = LoadState.error := by
  decide

/-- Claim C2 (amended): when the books query throws a message indicating a
missing table or a closed connection (and the empty-idSet short-circuit
does not apply), the controller performs exactly one automatic full
re-initialization and then transitions to the error state unconditionally:
the query is NOT retried within the request, and the previously shown
books and page count are left in place (a subsequent filter-state change
re-enters loading). -/
theorem fetch_error_reinit_once_amended (db : Database)
    (shuffle : List BookRow → List BookRow) (view : ViewState)
    (selectedAuthor : Option String) (favorites : List Int)
    (bookmarks : List (Int × Int)) (currentPage : Int) (searchTerm : String)
    (prev : FetchState) (msg : String)
    (hsc : fetchShortCircuits view favorites bookmarks = false)
    (hconn : isConnIssue msg = true) :
    runFetchEffect db shuffle view selectedAuthor favorites bookmarks
        currentPage searchTerm prev (some msg)
      = (⟨prev.books, prev.totalPages, LoadState.error⟩, ⟨1, 1⟩) := by
  simp [runFetchEffect, hsc, hconn]

/-- Witness for the amended C2 theorem with the "database is closed"
message on the all-books view. -/
theorem fetch_error_reinit_once_amended_witness :
    runFetchEffect dbOne id ViewState.allBooks none [] [] 1 ""
        prevFetchState (some "database is closed")
      = (⟨prevFetchState.books, prevFetchState.totalPages, LoadState.error⟩,
         ⟨1, 1⟩) :=
  fetch_error_reinit_once_amended dbOne id ViewState.allBooks none [] [] 1 ""
    prevFetchState "database is closed" (by decide) (by decide)

end EBooks
